import Mathlib

/-!
Shallow embedding of the `assert_fn` procedural macro
(`src/assert_fn/src/lib.rs`).  The crate turns an annotated function into a
generated `macro_rules!` invoker.  We model the fragments of the `syn` AST
that the generator inspects, translate every helper function of `lib.rs`
(panics become `Except.error` carrying the exact panic message), transcribe
the `format!` template that composes the generated artifact, and give a
runtime semantics for the generated invoker transcribed from that template.
-/

namespace AssertFn

/-! ## AST model (the fragments of `syn` types the generator inspects) -/

mutual

/-- Model of `syn::Type`, restricted to the shapes `get_return_type`
distinguishes: path types, tuple types, and everything else (references,
arrays, slices, ...), which the code treats uniformly. -/
inductive RustType where
  | path (segments : List PathSegment)
  | tuple (elems : List RustType)
  | other

/-- Model of `syn::PathSegment`: an identifier plus its path arguments. -/
inductive PathSegment where
  | mk (ident : String) (arguments : PathArguments)

/-- Model of `syn::PathArguments`. -/
inductive PathArguments where
  | noneArgs
  | angleBracketed (args : List GenericArgument)
  | parenthesized

/-- Model of `syn::GenericArgument`: a type argument, or anything else
(lifetime, const, binding, constraint), which the code rejects. -/
inductive GenericArgument where
  | type (t : RustType)
  | otherArg

end

/-- The identifier of a path segment. -/
def PathSegment.ident : PathSegment → String
  | .mk i _ => i

/-- The path arguments of a path segment. -/
def PathSegment.args : PathSegment → PathArguments
  | .mk _ a => a

/-- Model of `syn::ReturnType`. -/
inductive ReturnType where
  | default
  | type (t : RustType)

/-- Model of the parts of `syn::ItemFn` the generator reads: the function
name (`sig.ident`), the number of inputs (`sig.inputs` is only ever
enumerated for its count), the asyncness flag, and the declared output. -/
structure ItemFn where
  name : String
  arity : Nat
  isAsync : Bool
  output : ReturnType

/-- Model of `AssertReturnType` from `lib.rs`.  The arity is stored in the
source as a `u8` (`tuple.elems.len() as u8`), so here it is a `Nat` that is
always the element count reduced mod 256. -/
inductive AssertReturnType where
  | bool
  | tuple (n : Nat)
  | resultBool
  | resultTuple (n : Nat)
deriving DecidableEq

/-! ## Return-shape classifier (`get_return_type`, `get_return_result_type`) -/

/-- Translation of `get_return_result_type`.  Panics become `Except.error`
with the exact formatted panic message. -/
def get_return_result_type (fn_name : String) (path_segment : PathSegment) :
    Except String AssertReturnType :=
  match path_segment.args with
  | .angleBracketed args =>
    match args.head? with
    | none => .error (fn_name ++ " returned an invalid Result type")
    | some (GenericArgument.otherArg) =>
        .error (fn_name ++ " returned an invalid Result type")
    | some (GenericArgument.type arg_type) =>
      match arg_type with
      | .path arg_path =>
        match arg_path.getLast? with
        | none => .error (fn_name ++ " returned an invalid Result type")
        | some seg =>
          if seg.ident = "bool" then .ok .resultBool
          else .error (fn_name ++ " must return a Result of type bool or tuple")
      | .tuple elems => .ok (.resultTuple (elems.length % 256))
      | .other => .error (fn_name ++ " must return a Result of type bool or tuple")
  | _ => .error (fn_name ++ " returned an invalid Result type")

/-- Translation of `get_return_type`.  The `ReturnType::Default` panic
message is `"{} does not return anything"` formatted with the function
name; the `.expect` on an empty segment list keeps its literal
(unformatted) message. -/
def get_return_type (item : ItemFn) : Except String AssertReturnType :=
  let fn_name := item.name
  match item.output with
  | .default => .error (fn_name ++ " does not return anything")
  | .type return_type =>
    match return_type with
    | .path segments =>
      match segments.getLast? with
      | none => .error "\x7b\x7d returned an unexpected return type"
      | some last_segment =>
        if last_segment.ident = "bool" then .ok .bool
        else if last_segment.ident = "Result" then
          get_return_result_type fn_name last_segment
        else
          .error (fn_name ++ " must return a bool, tuple or a Result wrapping one of those types")
    | .tuple tuple => .ok (.tuple (tuple.length % 256))
    | .other =>
      .error (fn_name ++ " must return a bool, tuple or a Result wrapping one of those types")

/-! ## Attribute-argument model (the fragments of `syn` meta the generator
inspects in `get_message`) -/

/-- Model of `syn::Lit`: a string literal, or any other literal kind. -/
inductive Lit where
  | str (s : String)
  | otherLit

mutual

/-- Model of `syn::Meta`, restricted to what `get_message` distinguishes:
a list (`message(...)`), a bare path (an identifier or `_`), or anything
else (name/value pairs, ...). -/
inductive MetaItem where
  | list (path : List PathSegment) (nested : List NestedMeta)
  | path (path : List PathSegment)
  | otherMeta

/-- Model of `syn::NestedMeta`. -/
inductive NestedMeta where
  | meta (m : MetaItem)
  | lit (l : Lit)

end

/-- Model of `AssertMessage` from `lib.rs`: the rendered message fragment
(including its leading `, `) and the raw list of binding argument names. -/
structure AssertMessage where
  message : String
  args : List String
deriving DecidableEq

/-! ## Message directive parser (`get_message`) -/

/-- The body of the `find_map` closure in `get_message`: given the nested
params of one `message(...)` entry, the first param must be a string
literal, otherwise the closure yields `None` (and `find_map` moves on);
the rest become binding names (only bare paths are kept; their last
segment's identifier is taken), and the message fragment is rendered.
`extract_binding` is the per-entry binding extraction. -/
def extract_binding (nested_meta : NestedMeta) : Option String :=
  match nested_meta with
  | NestedMeta.meta (MetaItem.path path) => (path.getLast?).map PathSegment.ident
  | _ => none

/-- Rendering of the message fragment from the template string and the raw
binding names: the template between bare double quotes (no escaping), then
`name=name` pairs for every binding that is not the ignore marker. -/
def render_message (str : String) (args : List String) : String :=
  if args.isEmpty then ", \"" ++ str ++ "\""
  else
    let used_args := String.intercalate ", "
      ((args.filter (fun arg => arg ≠ "_")).map (fun arg => arg ++ "=" ++ arg))
    ", \"" ++ str ++ "\", " ++ used_args

def parse_message_params (params : List NestedMeta) : Option AssertMessage :=
  match params.head? with
  | some (NestedMeta.lit (Lit.str str)) =>
    let args := params.tail.filterMap extract_binding
    some ⟨render_message str args, args⟩
  | _ => none

/-- The filter chain of `get_message`: keep only `Meta::List` entries whose
path's last segment is the identifier `message`, yielding their nested
params. -/
def message_entry (item : NestedMeta) : Option (List NestedMeta) :=
  match item with
  | NestedMeta.meta (MetaItem.list path nested) =>
    match path.getLast? with
    | some seg => if seg.ident = "message" then some nested else none
    | none => none
  | _ => none

/-- Translation of `get_message`: the first `message(...)` entry whose
params parse (i.e. whose first param is a string literal) wins; entries
for which the closure yields `None` are skipped by `find_map`. -/
def get_message (args : List NestedMeta) : Option AssertMessage :=
  (args.filterMap message_entry).findSome? parse_message_params

/-! ## Synthesizer helpers -/

/-- Translation of `get_values_and_params`: fold over the inputs producing
the matcher fragment (`$arg_0:expr,...`) and the forwarding fragment
(`$arg_0,...`).  Only the input count matters. -/
def get_values_and_params (arity : Nat) : String × String :=
  (List.range arity).foldl
    (fun pv n =>
      (pv.1 ++ "$arg_" ++ toString n ++ ":expr,", pv.2 ++ "$arg_" ++ toString n ++ ","))
    ("", "")

/-- Translation of `get_async`. -/
def get_async (item : ItemFn) : String × String :=
  if item.isAsync then ("async", ".await") else ("", "")

/-- Closed form of the padding loop in `get_tuple_destructure`
(`while (args.len() as u8) < tuple_size { args.push("_") }`): the length is
compared after a `u8` cast, and for any `tuple_size < 256` the loop stops
exactly when the cast length first reaches `tuple_size`. -/
def pad_ignore (args : List String) (tuple_size : Nat) : List String :=
  args ++ List.replicate (tuple_size - args.length % 256) "_"

/-- Translation of `get_tuple_destructure`.  The panic on a boolean return
shape becomes `Except.error` with the exact panic message. -/
def get_tuple_destructure (assert_message : Option AssertMessage)
    (return_type : AssertReturnType) : Except String String :=
  match assert_message with
  | some msg =>
    if msg.args.isEmpty then .ok ""
    else
      match return_type with
      | .bool | .resultBool =>
        .error "Tried to use message args on function with boolean return type"
      | .tuple n | .resultTuple n =>
        .ok ("let (" ++ String.intercalate ", " (pad_ignore msg.args n) ++ ") = result;")
  | none => .ok ""

/-- Translation of `get_result_block`. -/
def get_result_block (return_type : AssertReturnType) : String × String :=
  match return_type with
  | .resultBool | .resultTuple _ => ("if let Ok(result) = result \x7b", "\x7d")
  | _ => ("", "")

/-- Translation of `get_assert_call`. -/
def get_assert_call (return_type : AssertReturnType) : String :=
  match return_type with
  | .bool | .resultBool => "assert!(result"
  | .tuple _ | .resultTuple _ => "assert_eq!(result.0, result.1"

/-! ## Artifact composition (the `format!` template of `assert_fn`) -/

/-- The form-A arm of the generated `macro_rules!` (transcribed from the
`format!` template, with `\x7b\x7b`/`\x7d\x7d` already collapsed to single
braces as `format!` does). -/
def form_a_arm (fn_name params_trimmed values async_block dot_await
    if_result_open tuple_destructure assert_call message if_result_close : String) : String :=
  "\n            (" ++ params_trimmed ++ "$(,)?) => \x7b " ++ async_block ++ " \x7b\n                let result = "
    ++ fn_name ++ "(" ++ values ++ ")" ++ dot_await ++ ";\n\n                "
    ++ if_result_open ++ "\n                " ++ tuple_destructure ++ "\n                "
    ++ assert_call ++ message ++ ");\n                " ++ if_result_close
    ++ "\n\n                result\n            \x7d\x7d;"

/-- The form-B arm of the generated `macro_rules!`: the caller's extra
tokens `$($arg)*` are spliced directly after the assert call; neither the
message fragment nor the tuple destructure is interpolated here. -/
def form_b_arm (fn_name params values async_block dot_await
    if_result_open assert_call if_result_close : String) : String :=
  "\n            (" ++ params ++ "$($arg:tt)+) => \x7b " ++ async_block ++ " \x7b\n                let result = "
    ++ fn_name ++ "(" ++ values ++ ")" ++ dot_await ++ ";\n\n                "
    ++ if_result_open ++ "\n                " ++ assert_call
    ++ ", $($arg)*);\n                " ++ if_result_close
    ++ "\n\n                result\n            \x7d\x7d;"

/-- The whole generated artifact text, as produced by the `format!` call in
`assert_fn`: the exported `macro_rules!` with its two arms, followed by the
original item re-emitted verbatim. -/
def artifact_text (fn_name params params_trimmed values async_block dot_await
    tuple_destructure if_result_open if_result_close assert_call message
    original_fn : String) : String :=
  "\n        #[macro_export]\n        macro_rules! assert_" ++ fn_name ++ " \x7b"
    ++ form_a_arm fn_name params_trimmed values async_block dot_await
        if_result_open tuple_destructure assert_call message if_result_close
    ++ form_b_arm fn_name params values async_block dot_await
        if_result_open assert_call if_result_close
    ++ "\n        \x7d\n\n        " ++ original_fn ++ "\n    "

/-- Modelled from the spec: the host's token parser (the `.parse()` call at
the end of `assert_fn`, an external collaborator of the generator) rejects
generated text whose double-quoted string literals do not close.  This
scanner tracks string-literal mode: outside a literal a `"` opens one;
inside, a backslash consumes the next character and a `"` closes it.  The
text is token-valid only if the scan ends outside a literal. -/
def string_mode_scan : List Char → Bool → Bool
  | [], in_string => !in_string
  | c :: rest, false =>
    if c = '\"' then string_mode_scan rest true else string_mode_scan rest false
  | c :: rest, true =>
    if c = '\\' then
      match rest with
      | [] => false
      | _ :: rest2 => string_mode_scan rest2 true
    else if c = '\"' then string_mode_scan rest false
    else string_mode_scan rest true

/-- Modelled from the spec: well-formedness of the generated token text, as
far as string-literal closure is concerned. -/
def tokens_valid (s : String) : Bool := string_mode_scan s.toList false

/-- Model of Rust's `str::trim_end_matches(',')` as used on the params and
values fragments: drop every trailing comma. -/
def trim_end_commas (s : String) : String :=
  String.mk ((s.toList.reverse.dropWhile (fun c => c = ',')).reverse)

/-- Translation of the body of `assert_fn`: run the pipeline in source
order (classifier, message parser, destructure, guard, assert call,
message fragment), compose the artifact text, and model the final
`.parse().expect("Generated invalid tokens")` as a token-validity check.
Every `panic!` along the way becomes an `Except.error`, so no partial
artifact is ever produced. -/
def assert_fn_gen (args : List NestedMeta) (item : ItemFn) (raw_item : String) :
    Except String String := do
  let return_type ← get_return_type item
  let assert_message := get_message args
  let fn_name := item.name
  let pv := get_values_and_params item.arity
  let ad := get_async item
  let tuple_destructure ← get_tuple_destructure assert_message return_type
  let rb := get_result_block return_type
  let assert_call := get_assert_call return_type
  let message := (assert_message.map AssertMessage.message).getD ""
  let generated := artifact_text fn_name pv.1 (trim_end_commas pv.1)
    (trim_end_commas pv.2) ad.1 ad.2 tuple_destructure
    rb.1 rb.2 assert_call message raw_item
  if tokens_valid generated then pure generated
  else .error "Generated invalid tokens"

/-! ## Runtime semantics of the generated invoker

Transcription of the generated `macro_rules!` body (the `format!` template
of `assert_fn` together with `get_result_block` and `get_assert_call`):

* form A (`(args $(,)?)`): `let result = f(args); {guard open}
  {destructure} assert.../assert_eq!(..{message}); {guard close} result`
* form B (`(args, extra tokens..)`): identical except that the assert call
  receives `, $($arg)*` — the caller's tokens — instead of the configured
  message fragment, and no destructure statement is present.

Tuple payloads are modelled homogeneously as `List α`; `result.0` and
`result.1` are positions 0 and 1 of that list. -/

/-- The runtime value returned by the wrapped function, per shape: a bare
bool, a bare tuple, or a `Result` (`Ok` around a bool or tuple payload, or
`Err`). -/
inductive WrappedResult (α ε : Type) where
  | bool (b : Bool)
  | tuple (elems : List α)
  | okBool (b : Bool)
  | okTuple (elems : List α)
  | err (e : ε)
deriving DecidableEq

/-- Agreement between the classified return shape and the runtime value the
wrapped call can produce (guaranteed by the host's type checking). -/
def conforms {α ε : Type} (rt : AssertReturnType) (r : WrappedResult α ε) : Bool :=
  match rt, r with
  | .bool, .bool _ => true
  | .tuple n, .tuple es => es.length = n
  | .resultBool, .okBool _ => true
  | .resultBool, .err _ => true
  | .resultTuple n, .okTuple es => es.length = n
  | .resultTuple _, .err _ => true
  | _, _ => false

/-- The two invocation forms of the generated invoker: form A (exactly the
argument slots) and form B (the argument slots followed by one-or-more
trailing diagnostic tokens). -/
inductive InvocationForm where
  | formA
  | formB (tokens : List String)

/-- The message arguments handed to the assert call at runtime: the
interpolated fragment (form A; empty when no directive) or the caller's
trailing tokens (form B). -/
inductive UsedMsg where
  | fragment (s : String)
  | tokens (ts : List String)
deriving DecidableEq

/-- The message arguments of the assert call, per the template: form A
interpolates `{message}` (line 131 of `lib.rs`: the directive's fragment,
or `""` when there is none); form B splices `$($arg)*`. -/
def used_msg (assert_message : Option AssertMessage) : InvocationForm → UsedMsg
  | .formA => .fragment ((assert_message.map AssertMessage.message).getD "")
  | .formB ts => .tokens ts

/-- Whether the generated assert call passes, per `get_assert_call`:
`assert!(result ..)` for boolean shapes, `assert_eq!(result.0, result.1 ..)`
for tuple shapes (only positions 0 and 1 take part). -/
def assert_passes {α ε : Type} [DecidableEq α] (rt : AssertReturnType)
    (r : WrappedResult α ε) : Bool :=
  match rt, r with
  | .bool, .bool b => b
  | .resultBool, .okBool b => b
  | .tuple _, .tuple es => decide (es[0]? = es[1]?)
  | .resultTuple _, .okTuple es => decide (es[0]? = es[1]?)
  | _, _ => true

/-- Whether the `if let Ok(result) = result` guard from `get_result_block`
skips the assert: only for a `Result` shape on the `Err` case. -/
def guard_skips {α ε : Type} (rt : AssertReturnType) (r : WrappedResult α ε) : Bool :=
  match rt, r with
  | .resultBool, .err _ => true
  | .resultTuple _, .err _ => true
  | _, _ => false

/-- One run of the generated invoker: whether an assertion was evaluated,
whether it raised (panicked), the message arguments it would use, and the
value the invoker returns (the wrapped call's value, bound once at the
top of the body and produced as the block's final expression). -/
structure RunOutcome (α ε : Type) where
  asserted : Bool
  raised : Bool
  msgUsed : UsedMsg
  returned : WrappedResult α ε
deriving DecidableEq

/-- Transcription of the generated invoker body (both arms share this
shape; they differ only in the message arguments): bind the wrapped call's
result, run the assert unless the failable guard skips it, and return the
bound result. -/
def run_invoker {α ε : Type} [DecidableEq α] (rt : AssertReturnType)
    (assert_message : Option AssertMessage) (form : InvocationForm)
    (r : WrappedResult α ε) : RunOutcome α ε :=
  if guard_skips rt r then
    ⟨false, false, used_msg assert_message form, r⟩
  else
    ⟨true, !(assert_passes rt r), used_msg assert_message form, r⟩

/-! ## Helper lemmas: one per classifier case -/

theorem return_type_missing (item : ItemFn) (h : item.output = .default) :
    get_return_type item = .error (item.name ++ " does not return anything") := by
  unfold get_return_type
  rw [h]

theorem return_type_tuple_eq (item : ItemFn) (elems : List RustType)
    (h : item.output = .type (.tuple elems)) :
    get_return_type item = .ok (.tuple (elems.length % 256)) := by
  unfold get_return_type
  rw [h]

theorem return_type_bool_eq (item : ItemFn) (segs : List PathSegment) (seg : PathSegment)
    (h : item.output = .type (.path segs)) (hl : segs.getLast? = some seg)
    (hb : seg.ident = "bool") :
    get_return_type item = .ok .bool := by
  unfold get_return_type
  rw [h]
  simp [hl, hb]

theorem return_type_result_dispatch (item : ItemFn) (segs : List PathSegment)
    (seg : PathSegment) (h : item.output = .type (.path segs))
    (hl : segs.getLast? = some seg) (hr : seg.ident = "Result") :
    get_return_type item = get_return_result_type item.name seg := by
  unfold get_return_type
  rw [h]
  simp [hl, hr]

theorem return_type_path_unrecognized (item : ItemFn) (segs : List PathSegment)
    (seg : PathSegment) (h : item.output = .type (.path segs))
    (hl : segs.getLast? = some seg) (hb : seg.ident ≠ "bool") (hr : seg.ident ≠ "Result") :
    get_return_type item =
      .error (item.name ++ " must return a bool, tuple or a Result wrapping one of those types") := by
  unfold get_return_type
  rw [h]
  simp [hl, hb, hr]

theorem return_type_other_shape (item : ItemFn) (h : item.output = .type .other) :
    get_return_type item =
      .error (item.name ++ " must return a bool, tuple or a Result wrapping one of those types") := by
  unfold get_return_type
  rw [h]

theorem result_type_arg_bool (fn_name : String) (seg : PathSegment)
    (gargs : List GenericArgument) (arg_path : List PathSegment) (arg_seg : PathSegment)
    (ha : seg.args = .angleBracketed gargs)
    (hh : gargs.head? = some (.type (.path arg_path)))
    (hl : arg_path.getLast? = some arg_seg) (hb : arg_seg.ident = "bool") :
    get_return_result_type fn_name seg = .ok .resultBool := by
  unfold get_return_result_type
  rw [ha]
  simp [hh, hl, hb]

theorem result_type_arg_tuple (fn_name : String) (seg : PathSegment)
    (gargs : List GenericArgument) (elems : List RustType)
    (ha : seg.args = .angleBracketed gargs)
    (hh : gargs.head? = some (.type (.tuple elems))) :
    get_return_result_type fn_name seg = .ok (.resultTuple (elems.length % 256)) := by
  unfold get_return_result_type
  rw [ha]
  simp [hh]

theorem result_type_arg_path_nonbool (fn_name : String) (seg : PathSegment)
    (gargs : List GenericArgument) (arg_path : List PathSegment) (arg_seg : PathSegment)
    (ha : seg.args = .angleBracketed gargs)
    (hh : gargs.head? = some (.type (.path arg_path)))
    (hl : arg_path.getLast? = some arg_seg) (hb : arg_seg.ident ≠ "bool") :
    get_return_result_type fn_name seg =
      .error (fn_name ++ " must return a Result of type bool or tuple") := by
  unfold get_return_result_type
  rw [ha]
  simp [hh, hl, hb]

theorem result_type_arg_other (fn_name : String) (seg : PathSegment)
    (gargs : List GenericArgument) (ha : seg.args = .angleBracketed gargs)
    (hh : gargs.head? = some (.type .other)) :
    get_return_result_type fn_name seg =
      .error (fn_name ++ " must return a Result of type bool or tuple") := by
  unfold get_return_result_type
  rw [ha]
  simp [hh]

theorem result_type_no_angle (fn_name : String) (seg : PathSegment)
    (ha : seg.args = .noneArgs ∨ seg.args = .parenthesized) :
    get_return_result_type fn_name seg =
      .error (fn_name ++ " returned an invalid Result type") := by
  unfold get_return_result_type
  rcases ha with ha | ha <;> rw [ha]

theorem result_type_no_first_arg (fn_name : String) (seg : PathSegment)
    (gargs : List GenericArgument) (ha : seg.args = .angleBracketed gargs)
    (hh : gargs.head? = none ∨ gargs.head? = some .otherArg) :
    get_return_result_type fn_name seg =
      .error (fn_name ++ " returned an invalid Result type") := by
  unfold get_return_result_type
  rw [ha]
  rcases hh with hh | hh <;> simp [hh]

theorem destructure_bool_error (msg : AssertMessage) (rt : AssertReturnType)
    (hne : msg.args ≠ []) (hrt : rt = .bool ∨ rt = .resultBool) :
    get_tuple_destructure (some msg) rt =
      .error "Tried to use message args on function with boolean return type" := by
  unfold get_tuple_destructure
  rcases hargs : msg.args with _ | ⟨a, l⟩
  · exact absurd hargs hne
  · rcases hrt with h | h <;> subst h <;> simp [hargs]

theorem gen_error_of_return_type_error (args : List NestedMeta) (item : ItemFn)
    (raw_item : String) (e : String) (h : get_return_type item = .error e) :
    assert_fn_gen args item raw_item = .error e := by
  unfold assert_fn_gen
  rw [h]
  rfl

theorem gen_error_of_destructure_error (args : List NestedMeta) (item : ItemFn)
    (raw_item : String) (e : String) (rt : AssertReturnType)
    (hr : get_return_type item = .ok rt)
    (hd : get_tuple_destructure (get_message args) rt = .error e) :
    assert_fn_gen args item raw_item = .error e := by
  unfold assert_fn_gen
  rw [hr]
  show (get_tuple_destructure (get_message args) rt).bind _ = _
  rw [hd]
  rfl

/-! ## Claim theorems -/

/-- C1 (amended): the Return-Shape Classifier's full case analysis as the
code implements it.  A tuple of length L yields `Tuple(L mod 256)` (the
arity is stored through a `u8` cast); a path ending in `bool` yields
`Boolean`; a path ending in `Result` dispatches on its FIRST generic
argument — `bool` path yields `Failable(Boolean)`, tuple yields
`Failable(Tuple(L mod 256))`, any other type argument is fatal with
"<fn> must return a Result of type bool or tuple", while a structurally
invalid `Result` (no angle-bracketed arguments, an empty argument list, or
a non-type first argument) is fatal with the distinct message
"<fn> returned an invalid Result type"; every other shape is fatal with
"<fn> must return a bool, tuple or a Result wrapping one of those types". -/
theorem claim1_return_shape_classification :
    (∀ (item : ItemFn) (elems : List RustType), item.output = .type (.tuple elems) →
      get_return_type item = .ok (.tuple (elems.length % 256))) ∧
    (∀ (item : ItemFn) (segs : List PathSegment) (seg : PathSegment),
      item.output = .type (.path segs) → segs.getLast? = some seg → seg.ident = "bool" →
      get_return_type item = .ok .bool) ∧
    (∀ (item : ItemFn) (segs : List PathSegment) (seg : PathSegment),
      item.output = .type (.path segs) → segs.getLast? = some seg → seg.ident = "Result" →
      get_return_type item = get_return_result_type item.name seg) ∧
    (∀ (fn_name : String) (seg : PathSegment) (gargs : List GenericArgument)
      (arg_path : List PathSegment) (arg_seg : PathSegment),
      seg.args = .angleBracketed gargs → gargs.head? = some (.type (.path arg_path)) →
      arg_path.getLast? = some arg_seg → arg_seg.ident = "bool" →
      get_return_result_type fn_name seg = .ok .resultBool) ∧
    (∀ (fn_name : String) (seg : PathSegment) (gargs : List GenericArgument)
      (elems : List RustType),
      seg.args = .angleBracketed gargs → gargs.head? = some (.type (.tuple elems)) →
      get_return_result_type fn_name seg = .ok (.resultTuple (elems.length % 256))) ∧
    (∀ (fn_name : String) (seg : PathSegment) (gargs : List GenericArgument)
      (arg_path : List PathSegment) (arg_seg : PathSegment),
      seg.args = .angleBracketed gargs → gargs.head? = some (.type (.path arg_path)) →
      arg_path.getLast? = some arg_seg → arg_seg.ident ≠ "bool" →
      get_return_result_type fn_name seg =
        .error (fn_name ++ " must return a Result of type bool or tuple")) ∧
    (∀ (fn_name : String) (seg : PathSegment) (gargs : List GenericArgument),
      seg.args = .angleBracketed gargs → gargs.head? = some (.type .other) →
      get_return_result_type fn_name seg =
        .error (fn_name ++ " must return a Result of type bool or tuple")) ∧
    (∀ (fn_name : String) (seg : PathSegment),
      seg.args = .noneArgs ∨ seg.args = .parenthesized →
      get_return_result_type fn_name seg =
        .error (fn_name ++ " returned an invalid Result type")) ∧
    (∀ (fn_name : String) (seg : PathSegment) (gargs : List GenericArgument),
      seg.args = .angleBracketed gargs → gargs.head? = none ∨ gargs.head? = some .otherArg →
      get_return_result_type fn_name seg =
        .error (fn_name ++ " returned an invalid Result type")) ∧
    (∀ (item : ItemFn) (segs : List PathSegment) (seg : PathSegment),
      item.output = .type (.path segs) → segs.getLast? = some seg →
      seg.ident ≠ "bool" → seg.ident ≠ "Result" →
      get_return_type item =
        .error (item.name ++ " must return a bool, tuple or a Result wrapping one of those types")) ∧
    (∀ (item : ItemFn), item.output = .type .other →
      get_return_type item =
        .error (item.name ++ " must return a bool, tuple or a Result wrapping one of those types")) :=
  ⟨return_type_tuple_eq, return_type_bool_eq, return_type_result_dispatch,
    result_type_arg_bool, result_type_arg_tuple, result_type_arg_path_nonbool,
    result_type_arg_other, result_type_no_angle, result_type_no_first_arg,
    return_type_path_unrecognized, return_type_other_shape⟩

/-- C1 witness: the amended case analysis evaluated at a concrete
declaration returning `bool`. -/
theorem claim1_return_shape_classification_witness :
    get_return_type ⟨"is_ten", 1, false, .type (.path [.mk "bool" .noneArgs])⟩ = .ok .bool :=
  claim1_return_shape_classification.2.1 _ [.mk "bool" .noneArgs] (.mk "bool" .noneArgs)
    rfl rfl rfl

set_option maxRecDepth 4000 in
/-- C1 counterexample: the claim's mapping fails as stated.  A 256-element
tuple type is classified as `Tuple(0)`, not `Tuple(256)` (the arity passes
through a `u8` cast); and a bare `Result` path (no generic arguments) is
fatal with the message "returned an invalid Result type", not the claimed
"must return a Result of type bool or tuple". -/
theorem claim1_counterexample :
    get_return_type ⟨"f", 0, false, .type (.tuple (List.replicate 256 .other))⟩ =
      .ok (.tuple 0) ∧
    AssertReturnType.tuple 0 ≠ .tuple 256 ∧
    get_return_type ⟨"f", 0, false, .type (.path [.mk "Result" .noneArgs])⟩ =
      .error "f returned an invalid Result type" ∧
    "f returned an invalid Result type" ≠ "f must return a Result of type bool or tuple" :=
  ⟨rfl, by decide, rfl, by decide⟩

/-- C7 (amended): for every Tuple or Failable(Tuple) shape the classifier
produces, the arity `n` is the literal element count of the declared tuple
type reduced mod 256 (it is stored through a `u8` cast), hence `n < 256`;
no `n ≥ 2` lower bound is checked or guaranteed. -/
theorem claim7_tuple_arity_invariant :
    (∀ (item : ItemFn) (elems : List RustType), item.output = .type (.tuple elems) →
      get_return_type item = .ok (.tuple (elems.length % 256)) ∧ elems.length % 256 < 256) ∧
    (∀ (fn_name : String) (seg : PathSegment) (gargs : List GenericArgument)
      (elems : List RustType),
      seg.args = .angleBracketed gargs → gargs.head? = some (.type (.tuple elems)) →
      get_return_result_type fn_name seg = .ok (.resultTuple (elems.length % 256)) ∧
        elems.length % 256 < 256) :=
  ⟨fun item elems h => ⟨return_type_tuple_eq item elems h, Nat.mod_lt _ (by decide)⟩,
    fun fn seg gargs elems ha hh =>
      ⟨result_type_arg_tuple fn seg gargs elems ha hh, Nat.mod_lt _ (by decide)⟩⟩

/-- C7 witness: the amended invariant evaluated at a concrete two-element
tuple declaration. -/
theorem claim7_tuple_arity_invariant_witness :
    get_return_type ⟨"is_ten", 1, false, .type (.tuple [.other, .other])⟩ =
      .ok (.tuple 2) ∧ 2 % 256 < 256 := by
  have h := claim7_tuple_arity_invariant.1
    ⟨"is_ten", 1, false, .type (.tuple [.other, .other])⟩ [.other, .other] rfl
  exact ⟨h.1, h.2⟩

set_option maxRecDepth 4000 in
/-- C7 counterexample: the claimed invariant fails.  A one-element tuple is
classified as `Tuple(1)` with `1 < 2` (no `n ≥ 2` check exists), and a
256-element tuple is classified as `Tuple(0)`, so `n` is not the literal
element count. -/
theorem claim7_counterexample :
    get_return_type ⟨"f", 0, false, .type (.tuple [.other])⟩ = .ok (.tuple 1) ∧
    ¬ 2 ≤ 1 ∧
    get_return_type ⟨"g", 0, false, .type (.tuple (List.replicate 256 .other))⟩ =
      .ok (.tuple 0) ∧
    (List.replicate 256 RustType.other).length ≠ 0 :=
  ⟨rfl, by decide, rfl, by decide⟩

/-- C4 (amended): generation aborts fatally, producing no artifact, in
these situations: missing return type (message "<fn> does not return
anything", not the claimed "function has no return type."); a return type
outside the four recognized shapes; a failable wrapper that is structurally
invalid or whose first generic argument is outside the two recognized
sub-shapes; and a message directive with ANY non-empty binding list (named
bindings or pure ignore markers alike) applied to a non-tuple return
shape.  Errors from the classifier or the destructure step propagate to
the whole generation, so no partial artifact is produced.  (The final
token-parse of the composed artifact can additionally abort with
"Generated invalid tokens"; see the message-interpolation theorems.) -/
theorem claim4_fatal_aborts :
    (∀ (item : ItemFn), item.output = .default →
      get_return_type item = .error (item.name ++ " does not return anything")) ∧
    (∀ (item : ItemFn) (segs : List PathSegment) (seg : PathSegment),
      item.output = .type (.path segs) → segs.getLast? = some seg →
      seg.ident ≠ "bool" → seg.ident ≠ "Result" →
      get_return_type item =
        .error (item.name ++ " must return a bool, tuple or a Result wrapping one of those types")) ∧
    (∀ (item : ItemFn), item.output = .type .other →
      get_return_type item =
        .error (item.name ++ " must return a bool, tuple or a Result wrapping one of those types")) ∧
    (∀ (fn_name : String) (seg : PathSegment),
      seg.args = .noneArgs ∨ seg.args = .parenthesized →
      get_return_result_type fn_name seg =
        .error (fn_name ++ " returned an invalid Result type")) ∧
    (∀ (fn_name : String) (seg : PathSegment) (gargs : List GenericArgument)
      (arg_path : List PathSegment) (arg_seg : PathSegment),
      seg.args = .angleBracketed gargs → gargs.head? = some (.type (.path arg_path)) →
      arg_path.getLast? = some arg_seg → arg_seg.ident ≠ "bool" →
      get_return_result_type fn_name seg =
        .error (fn_name ++ " must return a Result of type bool or tuple")) ∧
    (∀ (msg : AssertMessage) (rt : AssertReturnType),
      msg.args ≠ [] → rt = .bool ∨ rt = .resultBool →
      get_tuple_destructure (some msg) rt =
        .error "Tried to use message args on function with boolean return type") ∧
    (∀ (args : List NestedMeta) (item : ItemFn) (raw_item e : String),
      get_return_type item = .error e → assert_fn_gen args item raw_item = .error e) ∧
    (∀ (args : List NestedMeta) (item : ItemFn) (raw_item e : String)
      (rt : AssertReturnType), get_return_type item = .ok rt →
      get_tuple_destructure (get_message args) rt = .error e →
      assert_fn_gen args item raw_item = .error e) :=
  ⟨return_type_missing, return_type_path_unrecognized, return_type_other_shape,
    result_type_no_angle, result_type_arg_path_nonbool, destructure_bool_error,
    gen_error_of_return_type_error, gen_error_of_destructure_error⟩

/-- C4 witness: a concrete declaration with no return type aborts the whole
generation with the formatted message. -/
theorem claim4_fatal_aborts_witness :
    assert_fn_gen [] ⟨"is_ten", 1, false, .default⟩ "fn is_ten()" =
      .error "is_ten does not return anything" :=
  (claim4_fatal_aborts.2.2.2.2.2.2.1) [] ⟨"is_ten", 1, false, .default⟩ "fn is_ten()" _
    ((claim4_fatal_aborts.1) ⟨"is_ten", 1, false, .default⟩ rfl)

/-- C4 counterexample: the claim's abort list fails as stated.  The
missing-return-type message is "is_ten does not return anything", not
"function has no return type."; and a directive whose binding list holds
only ignore markers (no named binding) still aborts on a boolean shape, an
abort situation outside the claim's list. -/
theorem claim4_counterexample :
    get_return_type ⟨"is_ten", 1, false, .default⟩ =
      .error "is_ten does not return anything" ∧
    "is_ten does not return anything" ≠ "function has no return type." ∧
    get_tuple_destructure (some ⟨", \"m\"", ["_"]⟩) .bool =
      .error "Tried to use message args on function with boolean return type" ∧
    (["_"].filter (fun a => a ≠ "_")) = [] :=
  ⟨rfl, by decide, rfl, by decide⟩

/-- C2 (confirmed): Failable semantics of the generated invoker.  On the
`Err` case no assertion is evaluated and the invoker returns that exact
failure value unchanged; on the `Ok` case the assertion behavior (whether
it runs, whether it raises, which message arguments it uses) is exactly
that of the corresponding non-failable shape on the unwrapped payload
while the original success-wrapped value is returned; and under every
shape and both invocation forms the invoker returns exactly the value the
wrapped call produced. -/
theorem claim2_failable_semantics {α ε : Type} [DecidableEq α]
    (m : Option AssertMessage) (f : InvocationForm) :
    (∀ (e : ε) (n : Nat),
      run_invoker (α := α) .resultBool m f (.err e) =
        ⟨false, false, used_msg m f, .err e⟩ ∧
      run_invoker (α := α) (.resultTuple n) m f (.err e) =
        ⟨false, false, used_msg m f, .err e⟩) ∧
    (∀ b : Bool,
      run_invoker (α := α) (ε := ε) .resultBool m f (.okBool b) =
        ⟨(run_invoker (α := α) (ε := ε) .bool m f (.bool b)).asserted,
         (run_invoker (α := α) (ε := ε) .bool m f (.bool b)).raised,
         (run_invoker (α := α) (ε := ε) .bool m f (.bool b)).msgUsed, .okBool b⟩) ∧
    (∀ (n : Nat) (es : List α),
      run_invoker (ε := ε) (.resultTuple n) m f (.okTuple es) =
        ⟨(run_invoker (ε := ε) (.tuple n) m f (.tuple es)).asserted,
         (run_invoker (ε := ε) (.tuple n) m f (.tuple es)).raised,
         (run_invoker (ε := ε) (.tuple n) m f (.tuple es)).msgUsed, .okTuple es⟩) ∧
    (∀ (rt : AssertReturnType) (r : WrappedResult α ε),
      (run_invoker rt m f r).returned = r) := by
  refine ⟨fun e n => ⟨rfl, rfl⟩, fun b => rfl, fun n es => rfl, fun rt r => ?_⟩
  unfold run_invoker
  split <;> rfl

/-- C2 witness: the failable semantics evaluated at a concrete `Err`
value — no assertion, the exact failure value comes back. -/
theorem claim2_failable_semantics_witness :
    run_invoker (α := Nat) .resultBool none .formA (.err 7) =
      ⟨false, false, used_msg none .formA, .err 7⟩ ∧
    run_invoker (α := Nat) (.resultTuple 2) none .formA (.err 7) =
      ⟨false, false, used_msg none .formA, .err 7⟩ :=
  (claim2_failable_semantics none .formA).1 7 2

/-- C3 (confirmed): the assert condition of the generated invoker.  For the
Boolean shape (and Failable(Boolean) on `Ok`) an assertion is always
evaluated and raises iff the wrapped call returned `false`; for Tuple(n)
(and Failable(Tuple(n)) on `Ok`) with `n ≥ 2` it raises iff position 0 and
position 1 of the tuple differ; and positions beyond the second never
influence the comparison (two payloads agreeing on positions 0 and 1 raise
identically). -/
theorem claim3_assert_condition {α ε : Type} [DecidableEq α]
    (m : Option AssertMessage) (f : InvocationForm) :
    (∀ b : Bool,
      (run_invoker (α := α) (ε := ε) .bool m f (.bool b)).asserted = true ∧
      ((run_invoker (α := α) (ε := ε) .bool m f (.bool b)).raised = true ↔ b = false)) ∧
    (∀ b : Bool,
      (run_invoker (α := α) (ε := ε) .resultBool m f (.okBool b)).asserted = true ∧
      ((run_invoker (α := α) (ε := ε) .resultBool m f (.okBool b)).raised = true ↔
        b = false)) ∧
    (∀ (n : Nat) (es : List α), 2 ≤ n → es.length = n →
      (run_invoker (ε := ε) (.tuple n) m f (.tuple es)).asserted = true ∧
      ((run_invoker (ε := ε) (.tuple n) m f (.tuple es)).raised = true ↔
        es[0]? ≠ es[1]?)) ∧
    (∀ (n : Nat) (es : List α), 2 ≤ n → es.length = n →
      (run_invoker (ε := ε) (.resultTuple n) m f (.okTuple es)).asserted = true ∧
      ((run_invoker (ε := ε) (.resultTuple n) m f (.okTuple es)).raised = true ↔
        es[0]? ≠ es[1]?)) ∧
    (∀ (n : Nat) (es es' : List α), es[0]? = es'[0]? → es[1]? = es'[1]? →
      (run_invoker (ε := ε) (.tuple n) m f (.tuple es)).raised =
        (run_invoker (ε := ε) (.tuple n) m f (.tuple es')).raised) := by
  refine ⟨fun b => ⟨rfl, ?_⟩, fun b => ⟨rfl, ?_⟩,
    fun n es _ _ => ⟨rfl, ?_⟩, fun n es _ _ => ⟨rfl, ?_⟩, fun n es es' h0 h1 => ?_⟩ <;>
    simp [run_invoker, guard_skips, assert_passes, used_msg]
  · rw [h0, h1]

/-- C3 witness: the assert condition evaluated at the end-to-end example
shape `is_ten(9) = (9, 10)` — the invoker raises there. -/
theorem claim3_assert_condition_witness :
    (run_invoker (ε := Unit) (.tuple 2) none .formA (.tuple [9, 10])).asserted = true ∧
    ((run_invoker (ε := Unit) (.tuple 2) none .formA
        (.tuple ([9, 10] : List Nat))).raised = true ↔
      ([9, 10] : List Nat)[0]? ≠ ([9, 10] : List Nat)[1]?) :=
  (claim3_assert_condition none .formA).2.2.1 2 [9, 10] (by decide) (by decide)

/-- C5 (confirmed): form B of the generated invoker discards the configured
directive entirely — the run of the invoker is identical for any two
directive configurations — and the assertion's message arguments are
exactly the caller-supplied trailing tokens. -/
theorem claim5_form_b_override {α ε : Type} [DecidableEq α] :
    ∀ (rt : AssertReturnType) (m m' : Option AssertMessage) (ts : List String)
      (r : WrappedResult α ε),
      run_invoker rt m (.formB ts) r = run_invoker rt m' (.formB ts) r ∧
      (run_invoker rt m (.formB ts) r).msgUsed = .tokens ts := by
  intro rt m m' ts r
  refine ⟨rfl, ?_⟩
  unfold run_invoker
  split <;> rfl

/-! ## Helper lemmas for the message-directive parser -/

theorem findSome?_append_of_none {γ δ : Type} (f : γ → Option δ) (l1 l2 : List γ)
    (h : ∀ x ∈ l1, f x = none) :
    (l1 ++ l2).findSome? f = l2.findSome? f := by
  induction l1 with
  | nil => rfl
  | cons a l ih =>
    have ha : f a = none := h a (List.mem_cons_self a l)
    simp only [List.cons_append, List.findSome?_cons, ha]
    exact ih fun x hx => h x (List.mem_cons_of_mem a hx)

theorem findSome?_eq_none_of_all_none {γ δ : Type} (f : γ → Option δ) (l : List γ)
    (h : ∀ x ∈ l, f x = none) : l.findSome? f = none := by
  induction l with
  | nil => rfl
  | cons a l ih =>
    have ha : f a = none := h a (List.mem_cons_self a l)
    simp only [List.findSome?_cons, ha]
    exact ih fun x hx => h x (List.mem_cons_of_mem a hx)

/-- C6 (amended): the Message Directive Parser honors the first
message-tagged configuration entry whose first value is a string literal.
A message-tagged entry whose first value is absent or not a string makes
the `find_map` closure yield `None`, so the scan SKIPS it and a later
well-formed entry is still honored; only when every message-tagged entry
is malformed is no directive produced. -/
theorem claim6_message_directive_selection :
    (∀ (pre post nested : List NestedMeta) (path : List PathSegment)
      (pseg : PathSegment) (s : String),
      (∀ params ∈ pre.filterMap message_entry, parse_message_params params = none) →
      path.getLast? = some pseg → pseg.ident = "message" →
      get_message (pre ++
          (NestedMeta.meta (MetaItem.list path (NestedMeta.lit (Lit.str s) :: nested))) :: post) =
        some ⟨render_message s (nested.filterMap extract_binding),
          nested.filterMap extract_binding⟩) ∧
    (∀ args : List NestedMeta,
      (∀ params ∈ args.filterMap message_entry, parse_message_params params = none) →
      get_message args = none) := by
  constructor
  · intro pre post nested path pseg s hpre hl hm
    unfold get_message
    rw [List.filterMap_append]
    have hentry : message_entry
        (NestedMeta.meta (MetaItem.list path (NestedMeta.lit (Lit.str s) :: nested))) =
        some (NestedMeta.lit (Lit.str s) :: nested) := by
      unfold message_entry
      simp [hl, hm]
    rw [List.filterMap_cons, hentry]
    rw [findSome?_append_of_none _ _ _ hpre]
    simp [List.findSome?_cons, parse_message_params]
  · intro args h
    unfold get_message
    exact findSome?_eq_none_of_all_none _ _ h

/-- C6 witness: a malformed first `message(...)` entry (identifier instead
of a string literal) followed by a well-formed one — the second entry is
honored. -/
theorem claim6_message_directive_selection_witness :
    get_message
        ([NestedMeta.meta (MetaItem.list [.mk "message" .noneArgs]
            [NestedMeta.meta (MetaItem.path [.mk "nope" .noneArgs])])] ++
          (NestedMeta.meta (MetaItem.list [.mk "message" .noneArgs]
            [NestedMeta.lit (Lit.str "hi")])) :: []) =
      some ⟨", \"hi\"", []⟩ :=
  claim6_message_directive_selection.1
    [NestedMeta.meta (MetaItem.list [.mk "message" .noneArgs]
      [NestedMeta.meta (MetaItem.path [.mk "nope" .noneArgs])])]
    [] [] [.mk "message" .noneArgs] (.mk "message" .noneArgs) "hi"
    (by decide) rfl rfl

/-- C6 counterexample: against the claim, a first message-tagged entry
whose first value is not a string literal does NOT suppress the directive:
the parser skips it and produces a directive from the later entry. -/
theorem claim6_counterexample :
    get_message
        [NestedMeta.meta (MetaItem.list [.mk "message" .noneArgs]
            [NestedMeta.meta (MetaItem.path [.mk "nope" .noneArgs])]),
          NestedMeta.meta (MetaItem.list [.mk "message" .noneArgs]
            [NestedMeta.lit (Lit.str "hi")])] =
      some ⟨", \"hi\"", []⟩ ∧
    get_message
        [NestedMeta.meta (MetaItem.list [.mk "message" .noneArgs]
            [NestedMeta.meta (MetaItem.path [.mk "nope" .noneArgs])]),
          NestedMeta.meta (MetaItem.list [.mk "message" .noneArgs]
            [NestedMeta.lit (Lit.str "hi")])] ≠ none :=
  ⟨rfl, by decide⟩

/-- C8 (amended): when a directive's binding list is non-empty and the
shape is Tuple(n) or Failable(Tuple(n)) (classifier-produced, so
`n < 256`), the Synthesizer performs NO upper arity check: bindings in
excess of `n` pass through unchanged.  Padding is governed by the `u8`
cast in the loop's comparison: exactly `n - (bindings mod 256)` ignore
markers are appended when `bindings mod 256 < n` and none otherwise, so
the emitted pattern has `bindings + (n - bindings mod 256)` positions in
general.  For fewer than 256 bindings this equals `max bindings n`; at
256 bindings and beyond the wrap pads past that (256 bindings against
arity 2 yield 258 positions). -/
theorem claim8_binding_padding (msg : AssertMessage) (n : Nat)
    (hne : msg.args ≠ []) (_hn : n < 256) :
    get_tuple_destructure (some msg) (.tuple n) =
      .ok ("let (" ++
        String.intercalate ", "
          (msg.args ++ List.replicate (n - msg.args.length % 256) "_") ++
        ") = result;") ∧
    get_tuple_destructure (some msg) (.resultTuple n) =
      .ok ("let (" ++
        String.intercalate ", "
          (msg.args ++ List.replicate (n - msg.args.length % 256) "_") ++
        ") = result;") ∧
    (msg.args ++ List.replicate (n - msg.args.length % 256) "_").length =
      msg.args.length + (n - msg.args.length % 256) ∧
    (msg.args.length < 256 →
      (msg.args ++ List.replicate (n - msg.args.length % 256) "_").length =
        max msg.args.length n) := by
  have hpad : pad_ignore msg.args n =
      msg.args ++ List.replicate (n - msg.args.length % 256) "_" := rfl
  rcases hargs : msg.args with _ | ⟨a, l⟩
  · exact absurd hargs hne
  · refine ⟨?_, ?_, ?_, ?_⟩
    · simp only [get_tuple_destructure, ← hargs, hpad]
      simp [hargs]
    · simp only [get_tuple_destructure, ← hargs, hpad]
      simp [hargs]
    · simp only [List.length_append, List.length_replicate]
    · intro hlen
      simp only [List.length_cons] at hlen
      simp only [List.length_append, List.length_replicate, List.length_cons]
      omega

set_option maxRecDepth 4000 in
/-- C8 witness: one binding against arity three is padded with two ignore
markers (max case), and 256 bindings against arity two hit the `u8` wrap —
the comparison sees 256 mod 256 = 0 < 2, so two markers are appended and
the emitted pattern has 258 positions, exceeding `max 256 2`. -/
theorem claim8_binding_padding_witness :
    get_tuple_destructure (some ⟨", \"m\", a=a", ["a"]⟩) (.tuple 3) =
      .ok "let (a, _, _) = result;" ∧
    (["a"] ++ List.replicate (3 - 1 % 256) "_").length = max 1 3 ∧
    (List.replicate 256 "a" ++
        List.replicate (2 - (List.replicate 256 "a").length % 256) "_").length = 258 := by
  have h1 := claim8_binding_padding ⟨", \"m\", a=a", ["a"]⟩ 3 (by decide) (by decide)
  have h2 := claim8_binding_padding ⟨", \"m\", a=a", List.replicate 256 "a"⟩ 2
    (by intro h; have := congrArg List.length h; simp at this) (by decide)
  refine ⟨h1.1, h1.2.2.2 (by decide), ?_⟩
  have := h2.2.2.1
  simp only [List.length_replicate] at this ⊢
  rw [this]

/-- C8 counterexample: against the claimed invariant, three bindings on a
Tuple(2) shape are accepted without any arity check — the destructure is
emitted with all three names. -/
theorem claim8_counterexample :
    get_tuple_destructure (some ⟨", \"m\", a=a, b=b, c=c", ["a", "b", "c"]⟩) (.tuple 2) =
      .ok "let (a, b, c) = result;" ∧
    ¬ (["a", "b", "c"].length ≤ 2) :=
  ⟨rfl, by decide⟩

/-- C9 (amended): the destructuring statement is interpolated only into the
form-A arm of the generated invoker (the form-B arm of the template takes
no destructure at all), and it is non-empty exactly when a directive with
a NON-EMPTY binding list — named bindings or pure ignore markers alike —
exists for a Tuple or Failable(Tuple) shape.  A directive whose bindings
are all ignore markers still emits a destructuring of ignore patterns. -/
theorem claim9_destructure_emission :
    ∀ (m : Option AssertMessage) (n : Nat),
      ((∃ s, get_tuple_destructure m (.tuple n) = .ok s ∧ s ≠ "") ↔
        (∃ msg, m = some msg ∧ msg.args ≠ [])) ∧
      ((∃ s, get_tuple_destructure m (.resultTuple n) = .ok s ∧ s ≠ "") ↔
        (∃ msg, m = some msg ∧ msg.args ≠ [])) := by
  have hne : ∀ (l : List String), ("let (" ++ String.intercalate ", " l ++ ") = result;") ≠ "" := by
    intro l h
    have := congrArg String.length h
    simp [String.length_append] at this
    exact absurd this.1.1 (by decide)
  intro m n
  rcases m with _ | msg
  · constructor <;> constructor
    · rintro ⟨s, hs, hne'⟩
      exact absurd (by injection hs with h; exact h.symm) hne'
    · rintro ⟨msg, hmsg, -⟩
      exact absurd hmsg (by simp)
    · rintro ⟨s, hs, hne'⟩
      exact absurd (by injection hs with h; exact h.symm) hne'
    · rintro ⟨msg, hmsg, -⟩
      exact absurd hmsg (by simp)
  · rcases hargs : msg.args with _ | ⟨a, l⟩
    · have hempty : get_tuple_destructure (some msg) (.tuple n) = .ok "" ∧
          get_tuple_destructure (some msg) (.resultTuple n) = .ok "" := by
        constructor <;> simp [get_tuple_destructure, hargs]
      constructor <;> constructor
      · rintro ⟨s, hs, hne'⟩
        rw [hempty.1] at hs
        exact absurd (by injection hs with h; exact h.symm) hne'
      · rintro ⟨msg', hmsg', hne'⟩
        injection hmsg' with h
        exact absurd (h ▸ hargs) hne'
      · rintro ⟨s, hs, hne'⟩
        rw [hempty.2] at hs
        exact absurd (by injection hs with h; exact h.symm) hne'
      · rintro ⟨msg', hmsg', hne'⟩
        injection hmsg' with h
        exact absurd (h ▸ hargs) hne'
    · have hfull : get_tuple_destructure (some msg) (.tuple n) =
          .ok ("let (" ++ String.intercalate ", " (pad_ignore msg.args n) ++ ") = result;") ∧
          get_tuple_destructure (some msg) (.resultTuple n) =
          .ok ("let (" ++ String.intercalate ", " (pad_ignore msg.args n) ++ ") = result;") := by
        constructor <;> simp [get_tuple_destructure, hargs]
      constructor <;> constructor
      · intro
        exact ⟨msg, rfl, by simp [hargs]⟩
      · intro
        exact ⟨_, hfull.1, hne _⟩
      · intro
        exact ⟨msg, rfl, by simp [hargs]⟩
      · intro
        exact ⟨_, hfull.2, hne _⟩

/-- C9 counterexample: against the claim, a directive whose binding list
consists only of ignore markers (no Named binding at all) still emits a
destructuring statement. -/
theorem claim9_counterexample :
    get_tuple_destructure (some ⟨", \"m\"", ["_", "_"]⟩) (.tuple 2) =
      .ok "let (_, _) = result;" ∧
    "let (_, _) = result;" ≠ "" ∧
    (["_", "_"].filter (fun a => a ≠ "_")) = [] :=
  ⟨rfl, by decide, by decide⟩

set_option maxRecDepth 8000 in
/-- C10 (confirmed): the message template is interpolated between bare
double quotes with no escaping, so a template containing a double quote —
or one ending in a backslash — produces generated text whose string
literals do not close, and the generator aborts with "Generated invalid
tokens" even though the annotated declaration itself is valid (its return
shape classifies as Boolean).  The host token parser is modelled by
`tokens_valid`. -/
theorem claim10_template_quoting_abort :
    get_return_type ⟨"is_ten", 1, false, .type (.path [.mk "bool" .noneArgs])⟩ =
      .ok .bool ∧
    get_message [.meta (.list [.mk "message" .noneArgs] [.lit (Lit.str "a\"b")])] =
      some ⟨", \"a\"b\"", []⟩ ∧
    assert_fn_gen [.meta (.list [.mk "message" .noneArgs] [.lit (Lit.str "a\"b")])]
      ⟨"is_ten", 1, false, .type (.path [.mk "bool" .noneArgs])⟩
      "fn is_ten (num : usize) -> bool \x7b num == 10 \x7d" =
      .error "Generated invalid tokens" ∧
    assert_fn_gen [.meta (.list [.mk "message" .noneArgs] [.lit (Lit.str "a\\")])]
      ⟨"is_ten", 1, false, .type (.path [.mk "bool" .noneArgs])⟩
      "fn is_ten (num : usize) -> bool \x7b num == 10 \x7d" =
      .error "Generated invalid tokens" :=
  ⟨rfl, rfl, rfl, rfl⟩

/-- C5 witness: a configured template is discarded by form B at a concrete
input; the caller tokens are the message arguments. -/
theorem claim5_form_b_override_witness :
    run_invoker (α := Nat) (ε := Unit) .bool
        (some ⟨", \"Default message\"", []⟩) (.formB ["oops"]) (.bool false) =
      run_invoker (α := Nat) (ε := Unit) .bool none (.formB ["oops"]) (.bool false) ∧
    (run_invoker (α := Nat) (ε := Unit) .bool
        (some ⟨", \"Default message\"", []⟩) (.formB ["oops"]) (.bool false)).msgUsed =
      .tokens ["oops"] :=
  claim5_form_b_override .bool (some ⟨", \"Default message\"", []⟩) none ["oops"] (.bool false)

/-- C9 witness: the emission criterion evaluated at a concrete directive
with one named binding on a Tuple(2) shape. -/
theorem claim9_destructure_emission_witness :
    (∃ s, get_tuple_destructure (some ⟨", \"m\", a=a", ["a"]⟩) (.tuple 2) = .ok s ∧ s ≠ "") ↔
      (∃ msg, (some ⟨", \"m\", a=a", ["a"]⟩ : Option AssertMessage) = some msg ∧
        msg.args ≠ []) :=
  (claim9_destructure_emission (some ⟨", \"m\", a=a", ["a"]⟩) 2).1

end AssertFn

